import Mathlib

/-!
Shallow embedding of the simulation core of `src/main.rs` (a macroquad
arcade shooter).  `f32` values are modelled as exact rationals, `u32`
counters as `Nat`.  External collaborators (keyboard, clock, random
source, file storage, rendering) are modelled as per-frame oracle
parameters following the interface contracts of the specification.
-/

namespace Arcade

/-- The entity record `Shape { size, speed, x, y, collided }` of the source. -/
structure Shape where
  size : ℚ
  speed : ℚ
  x : ℚ
  y : ℚ
  collided : Bool
  deriving DecidableEq, Repr

/-- The rectangle record used by `Shape::rect` (macroquad `Rect { x, y, w, h }`). -/
structure Rect where
  x : ℚ
  y : ℚ
  w : ℚ
  h : ℚ
  deriving DecidableEq, Repr

/-- `Shape::rect`: the bounding square centered on the position with edge `size`. -/
def Shape.rect (s : Shape) : Rect :=
  { x := s.x - s.size / 2, y := s.y - s.size / 2, w := s.size, h := s.size }

/-- Modelled from the spec: `Rect::overlaps` is code of the macroquad library and
is not part of this repository; spec §4.1 defines the collision test as
axis-aligned bounding-box overlap where the intersection must have positive
area on both axes (rectangles touching at an edge do not count). -/
def Rect.overlaps (a b : Rect) : Bool :=
  decide (a.x < b.x + b.w) && decide (b.x < a.x + a.w) &&
    decide (a.y < b.y + b.h) && decide (b.y < a.y + a.h)

/-- `Shape::collides_with`: overlap of the two derived rectangles. -/
def Shape.collides_with (a b : Shape) : Bool :=
  a.rect.overlaps b.rect

/-- An explosion record: the emitter configuration data the core reads or
writes (`amount`, `config.emitting`) together with the anchor coordinates. -/
structure Explosion where
  amount : ℕ
  emitting : Bool
  x : ℚ
  y : ℚ
  deriving DecidableEq, Repr

/-- The `GameState` enum of the source. -/
inductive GameState where
  | MainMenu
  | Playing
  | Paused
  | GameOver
  deriving DecidableEq, Repr

/-- The mutable state owned by `main`: entity collections, the player
(`circle`), scores, the state machine mode, the explosion queue and the
shader direction modifier. -/
structure Game where
  squares : List Shape
  bullets : List Shape
  circle : Shape
  score : ℕ
  high_score : ℕ
  game_state : GameState
  explosions : List Explosion
  direction_modifier : ℚ
  deriving DecidableEq, Repr

/-- Keyboard oracle for one frame: held arrow keys and the edge-triggered
`Space` / `Escape` presses. -/
structure FrameInput where
  right : Bool
  left : Bool
  down : Bool
  up : Bool
  space : Bool
  escape : Bool
  deriving DecidableEq, Repr

/-- Random oracle for one frame: the values returned by the four
`rand::gen_range` calls of the `Playing` branch. -/
structure Rng where
  spawnRoll : ℕ
  sizeRoll : ℚ
  speedRoll : ℚ
  xRoll : ℚ
  deriving DecidableEq, Repr

/-- The bounds `(0, 99)` passed to `rand::gen_range` for the spawn decision. -/
def spawnRollBounds : ℕ × ℕ := (0, 99)

/-- Modelled from the spec: §6 specifies the external random source as
`uniform integer in [lo,hi)`, so a possible spawn roll is a value in the
half-open range given by the bounds of the call site. -/
def SpawnRollPossible (r : ℕ) : Prop :=
  spawnRollBounds.1 ≤ r ∧ r < spawnRollBounds.2

/-- Modelled from the spec: §6 specifies both random primitives as uniform on
`[lo,hi)`; a valid frame oracle returns each draw inside the half-open range
of its call site (`gen_range(0, 99)`, `gen_range(16.0, 64.0)`,
`gen_range(50.0, 150.0)`, `gen_range(size / 2.0, screen_width() - size / 2.0)`). -/
def Rng.Valid (rng : Rng) (W : ℚ) : Prop :=
  SpawnRollPossible rng.spawnRoll ∧
    16 ≤ rng.sizeRoll ∧ rng.sizeRoll < 64 ∧
    50 ≤ rng.speedRoll ∧ rng.speedRoll < 150 ∧
    rng.sizeRoll / 2 ≤ rng.xRoll ∧ rng.xRoll < W - rng.sizeRoll / 2

/-- `const MOVEMENT_SPEED: f32 = 200.0`. -/
def MOVEMENT_SPEED : ℚ := 200

/-- The four `is_key_down` movement blocks of the `Playing` branch applied to
the player shape. -/
def integratePlayer (c : Shape) (inp : FrameInput) (dt : ℚ) : Shape :=
  let c1 := if inp.right then { c with x := c.x + MOVEMENT_SPEED * dt } else c
  let c2 := if inp.left then { c1 with x := c1.x - MOVEMENT_SPEED * dt } else c1
  let c3 := if inp.down then { c2 with y := c2.y + MOVEMENT_SPEED * dt } else c2
  if inp.up then { c3 with y := c3.y - MOVEMENT_SPEED * dt } else c3

/-- The `direction_modifier` updates attached to the left/right movement keys. -/
def directionStage (dm : ℚ) (inp : FrameInput) (dt : ℚ) : ℚ :=
  let dm1 := if inp.right then dm + 5 / 100 * dt else dm
  if inp.left then dm1 - 5 / 100 * dt else dm1

/-- The bullet pushed on a `Space` press: spawned at the player's current
(pre-clamp) position with `speed = circle.speed * 2` and `size = 5`. -/
def fireBullet (c : Shape) : Shape :=
  { size := 5, speed := c.speed * 2, x := c.x, y := c.y, collided := false }

/-- `circle.x.min(screen_width()).max(0.0)` and the matching line for `y`. -/
def clampPlayer (c : Shape) (W H : ℚ) : Shape :=
  { c with x := max (min c.x W) 0, y := max (min c.y H) 0 }

/-- The obstacle pushed by the spawner: randomized size and speed, `y = -size`. -/
def spawnShape (rng : Rng) : Shape :=
  { size := rng.sizeRoll, speed := rng.speedRoll, x := rng.xRoll,
    y := -rng.sizeRoll, collided := false }

/-- The spawner: `if rand::gen_range(0, 99) >= 95` push one obstacle. -/
def spawnStage (sqs : List Shape) (rng : Rng) : List Shape :=
  if 95 ≤ rng.spawnRoll then sqs ++ [spawnShape rng] else sqs

/-- `square.y += square.speed * delta_time`. -/
def moveSquare (dt : ℚ) (s : Shape) : Shape :=
  { s with y := s.y + s.speed * dt }

/-- `bullet.y -= bullet.speed * delta_time`. -/
def moveBullet (dt : ℚ) (b : Shape) : Shape :=
  { b with y := b.y - b.speed * dt }

/-- Retention predicate `square.y < screen_height() + square.size`. -/
def squareOnScreen (H : ℚ) (s : Shape) : Bool :=
  decide (s.y < H + s.size)

/-- Retention predicate `bullet.y > 0.0 - bullet.size / 2.0`. -/
def bulletOnScreen (b : Shape) : Bool :=
  decide (0 - b.size / 2 < b.y)

/-- Everything of the `Playing` branch up to and including the four `retain`
sweeps: player movement, firing, clamping, spawning, motion integration,
the two off-screen sweeps, the two collided sweeps and the retirement of
exhausted explosions.  Runs before the frame's two collision rules. -/
def integratePhase (g : Game) (inp : FrameInput) (dt : ℚ) (rng : Rng)
    (W H : ℚ) : Game :=
  let c1 := integratePlayer g.circle inp dt
  let dm := directionStage g.direction_modifier inp dt
  let bullets1 := if inp.space then g.bullets ++ [fireBullet c1] else g.bullets
  let c2 := clampPlayer c1 W H
  let squares1 := spawnStage g.squares rng
  let squares2 := squares1.map (moveSquare dt)
  let bullets2 := bullets1.map (moveBullet dt)
  let squares3 := squares2.filter (squareOnScreen H)
  let bullets3 := bullets2.filter bulletOnScreen
  let squares4 := squares3.filter (fun s => !s.collided)
  let bullets4 := bullets3.filter (fun b => !b.collided)
  let ex1 := g.explosions.filter (fun e => e.emitting)
  { g with circle := c2, squares := squares4, bullets := bullets4,
           explosions := ex1, direction_modifier := dm }

/-- `squares.iter().any(|square| circle.collides_with(square))`. -/
def playerHit (g : Game) : Bool :=
  g.squares.any (fun s => g.circle.collides_with s)

/-- Accumulator of the projectile–obstacle resolution pass: the bullet list
being traversed and the score / high-score / explosion state it mutates. -/
structure PassState where
  bullets : List Shape
  score : ℕ
  high_score : ℕ
  explosions : List Explosion
  deriving DecidableEq, Repr

/-- The explosion enqueued for a hit obstacle: `amount = round(size) * 2`,
emitting (from `particle_explosion()`), anchored at the obstacle's position. -/
def hitExplosion (sq : Shape) : Explosion :=
  { amount := (round sq.size).toNat * 2, emitting := true, x := sq.x, y := sq.y }

/-- Inner loop of the resolution pass: one square checked against every bullet
in order.  A hit marks both shapes, adds `round(square.size)` to the score,
maxes the high score, and pushes one explosion at the square's position. -/
def scanBullets (sq : Shape) : List Shape → ℕ → ℕ → List Explosion →
    Shape × PassState
  | [], score, high, ex => (sq, ⟨[], score, high, ex⟩)
  | b :: bs, score, high, ex =>
    if b.collides_with sq then
      let score1 := score + (round sq.size).toNat
      let r := scanBullets { sq with collided := true } bs score1
        (max high score1) (ex ++ [hitExplosion sq])
      (r.1, { r.2 with bullets := { b with collided := true } :: r.2.bullets })
    else
      let r := scanBullets sq bs score high ex
      (r.1, { r.2 with bullets := b :: r.2.bullets })

/-- Outer loop of the resolution pass over the square list. -/
def pairPass : List Shape → PassState → List Shape × PassState
  | [], st => ([], st)
  | sq :: sqs, st =>
    let r1 := scanBullets sq st.bullets st.score st.high_score st.explosions
    let r2 := pairPass sqs r1.2
    (r1.1 :: r2.1, r2.2)

/-- One `Playing` frame.  Returns the next state and whether the high-score
persistence write was issued (rule 1 fires with `score == high_score`).
The order is that of the source: integration and sweeps, then rule 1
(player–obstacle, game-over and persistence), then rule 2 (the
projectile–obstacle marking pass). -/
def stepPlaying (g : Game) (inp : FrameInput) (dt : ℚ) (rng : Rng)
    (W H : ℚ) : Game × Bool :=
  let g1 := integratePhase g inp dt rng W H
  let save := playerHit g1 && (g1.score == g1.high_score)
  let st := if playerHit g1 then GameState.GameOver else GameState.Playing
  let r := pairPass g1.squares ⟨g1.bullets, g1.score, g1.high_score, g1.explosions⟩
  ({ g1 with squares := r.1, bullets := r.2.bullets, score := r.2.score,
             high_score := r.2.high_score, explosions := r.2.explosions,
             game_state := st }, save)

/-- One frame of the full state dispatch.  `none` models `process::exit`
(Escape on the main menu); otherwise the next state and the persistence
write flag are returned. -/
def stepGame (g : Game) (inp : FrameInput) (dt : ℚ) (rng : Rng)
    (W H : ℚ) : Option (Game × Bool) :=
  match g.game_state with
  | GameState.MainMenu =>
    if inp.escape then none
    else if inp.space then
      some ({ g with squares := [], bullets := [], explosions := [],
                     circle := { g.circle with x := W / 2, y := H / 2 },
                     score := 0, game_state := GameState.Playing }, false)
    else some (g, false)
  | GameState.Playing => some (stepPlaying g inp dt rng W H)
  | GameState.Paused =>
    if inp.escape then some ({ g with game_state := GameState.Playing }, false)
    else some (g, false)
  | GameState.GameOver =>
    if inp.space then some ({ g with game_state := GameState.MainMenu }, false)
    else some (g, false)

/-- Model of `str::parse::<u32>`: an optional leading `+`, then one or more
ASCII digits, value at most `u32::MAX`. -/
def parseU32 (s : String) : Option ℕ :=
  let t := if s.startsWith "+" then s.drop 1 else s
  if t.length ≠ 0 ∧ t.data.all Char.isDigit then
    let v := t.data.foldl (fun n c => n * 10 + (c.toNat - 48)) 0
    if v < 2 ^ 32 then some v else none
  else none

/-- The startup read
`fs::read_to_string("highscore.dat").map_or(Ok(0), |i| i.parse::<u32>()).unwrap_or(0)`:
a failed read yields 0, a successful read is parsed with parse failure
defaulting to 0.  The file contents are the oracle `storage`. -/
def loadHighScore (storage : Option String) : ℕ :=
  match storage with
  | none => 0
  | some s => (parseU32 s).getD 0

/-- The state after the initializers of `main`, before the first frame. -/
def initialGame (storage : Option String) (W H : ℚ) : Game :=
  { squares := [], bullets := [],
    circle := { size := 32, speed := MOVEMENT_SPEED, x := W / 2, y := H / 2,
                collided := false },
    score := 0, high_score := loadHighScore storage,
    game_state := GameState.MainMenu, explosions := [],
    direction_modifier := 0 }

/-- States reachable from startup: the initial state, closed under one frame
of `stepGame` with arbitrary per-frame inputs, elapsed time, random draws
and screen dimensions. -/
inductive Reachable (storage : Option String) : Game → Prop
  | init (W H : ℚ) : Reachable storage (initialGame storage W H)
  | step (g g' : Game) (inp : FrameInput) (dt : ℚ) (rng : Rng) (W H : ℚ)
      (saved : Bool) (hg : Reachable storage g)
      (hstep : stepGame g inp dt rng W H = some (g', saved)) :
      Reachable storage g'

/-! ### Closed forms of the resolution pass -/

/-- How the pass updates one bullet when checked against one square. -/
def markBulletIf (sq b : Shape) : Shape :=
  if b.collides_with sq then { b with collided := true } else b

/-- A square's state after the pass: flagged when some bullet overlaps it. -/
def markSquare (bs : List Shape) (sq : Shape) : Shape :=
  { sq with collided := sq.collided || bs.any (fun b => b.collides_with sq) }

/-- A bullet's state after the pass: flagged when some square overlaps it. -/
def markBullet (sqs : List Shape) (b : Shape) : Shape :=
  { b with collided := b.collided || sqs.any (fun sq => b.collides_with sq) }

/-- Number of bullets whose box overlaps a given square's box. -/
def hitCount (bs : List Shape) (sq : Shape) : ℕ :=
  bs.countP (fun b => b.collides_with sq)

/-- Score added by the pass: `round(size)` once per overlapping pair. -/
def scoreGain (bs : List Shape) : List Shape → ℕ
  | [] => 0
  | sq :: sqs => hitCount bs sq * (round sq.size).toNat + scoreGain bs sqs

/-- Explosions enqueued by the pass: one per overlapping pair, anchored at
the square. -/
def explosionsOf (bs : List Shape) : List Shape → List Explosion
  | [] => []
  | sq :: sqs =>
    List.replicate (hitCount bs sq) (hitExplosion sq) ++ explosionsOf bs sqs

theorem collides_with_mark_left (b sq : Shape) (c : Bool) :
    Shape.collides_with { b with collided := c } sq = b.collides_with sq := rfl

theorem collides_with_mark_right (b sq : Shape) (c : Bool) :
    Shape.collides_with b { sq with collided := c } = b.collides_with sq := rfl

theorem collides_with_markBulletIf (sq b sq2 : Shape) :
    Shape.collides_with (markBulletIf sq b) sq2 = b.collides_with sq2 := by
  unfold markBulletIf
  split <;> rfl

theorem hitCount_map_markBulletIf (bs : List Shape) (sq sq2 : Shape) :
    hitCount (bs.map (markBulletIf sq)) sq2 = hitCount bs sq2 := by
  unfold hitCount
  rw [List.countP_map]
  have h : (fun b => Shape.collides_with b sq2) ∘ markBulletIf sq =
      fun b => Shape.collides_with b sq2 :=
    funext fun b => collides_with_markBulletIf sq b sq2
  rw [h]

theorem markSquare_map_markBulletIf (bs : List Shape) (sq sq2 : Shape) :
    markSquare (bs.map (markBulletIf sq)) sq2 = markSquare bs sq2 := by
  unfold markSquare
  rw [List.any_map]
  have h : (fun b => Shape.collides_with b sq2) ∘ markBulletIf sq =
      fun b => Shape.collides_with b sq2 :=
    funext fun b => collides_with_markBulletIf sq b sq2
  rw [h]

theorem markBulletIf_mark (sq b : Shape) (c : Bool) :
    markBulletIf { sq with collided := c } b = markBulletIf sq b := rfl

theorem markBullet_markBulletIf (sq : Shape) (sqs : List Shape) (b : Shape) :
    markBullet sqs (markBulletIf sq b) = markBullet (sq :: sqs) b := by
  unfold markBulletIf markBullet
  by_cases h : Shape.collides_with b sq = true
  · simp [h, collides_with_mark_left]
  · simp only [Bool.not_eq_true] at h
    simp [h]

theorem hitCount_mark (bs : List Shape) (sq : Shape) :
    hitCount bs { sq with collided := true } = hitCount bs sq := rfl

theorem hitExplosion_mark (sq : Shape) :
    hitExplosion { sq with collided := true } = hitExplosion sq := rfl

theorem scanBullets_fst (bs : List Shape) (sq : Shape) (score high : ℕ)
    (ex : List Explosion) :
    (scanBullets sq bs score high ex).1 = markSquare bs sq := by
  induction bs generalizing sq score high ex with
  | nil => simp [scanBullets, markSquare]
  | cons b bs ih =>
    by_cases h : Shape.collides_with b sq = true
    · simp [scanBullets, h, ih, markSquare, collides_with_mark_right]
    · simp [scanBullets, h, ih, markSquare]

theorem scanBullets_bullets (bs : List Shape) (sq : Shape) (score high : ℕ)
    (ex : List Explosion) :
    (scanBullets sq bs score high ex).2.bullets = bs.map (markBulletIf sq) := by
  induction bs generalizing sq score high ex with
  | nil => simp [scanBullets]
  | cons b bs ih =>
    by_cases h : Shape.collides_with b sq = true
    · simp [scanBullets, h, ih, markBulletIf_mark, markBulletIf]
      intro a _
      rfl
    · simp [scanBullets, h, ih, markBulletIf]

theorem scanBullets_score (bs : List Shape) (sq : Shape) (score high : ℕ)
    (ex : List Explosion) :
    (scanBullets sq bs score high ex).2.score =
      score + hitCount bs sq * (round sq.size).toNat := by
  induction bs generalizing sq score high ex with
  | nil => simp [scanBullets, hitCount]
  | cons b bs ih =>
    by_cases h : Shape.collides_with b sq = true
    · simp only [scanBullets, h, if_true]
      rw [ih, hitCount_mark]
      simp [hitCount, List.countP_cons, h]
      ring
    · simp only [scanBullets, h, Bool.false_eq_true, if_false]
      rw [ih]
      simp [hitCount, List.countP_cons, h]

theorem scanBullets_explosions (bs : List Shape) (sq : Shape) (score high : ℕ)
    (ex : List Explosion) :
    (scanBullets sq bs score high ex).2.explosions =
      ex ++ List.replicate (hitCount bs sq) (hitExplosion sq) := by
  induction bs generalizing sq score high ex with
  | nil => simp [scanBullets, hitCount]
  | cons b bs ih =>
    by_cases h : Shape.collides_with b sq = true
    · simp only [scanBullets, h, if_true]
      rw [ih, hitCount_mark, hitExplosion_mark, List.append_assoc]
      simp only [hitCount, List.countP_cons, h, if_true, List.singleton_append]
      rw [List.replicate_succ]
    · simp only [scanBullets, h, Bool.false_eq_true, if_false]
      rw [ih]
      simp [hitCount, List.countP_cons, h]

theorem scanBullets_score_mono (bs : List Shape) (sq : Shape) (score high : ℕ)
    (ex : List Explosion) :
    score ≤ (scanBullets sq bs score high ex).2.score := by
  rw [scanBullets_score]
  exact Nat.le_add_right _ _

theorem scanBullets_high_mono (bs : List Shape) (sq : Shape) (score high : ℕ)
    (ex : List Explosion) :
    high ≤ (scanBullets sq bs score high ex).2.high_score := by
  induction bs generalizing sq score high ex with
  | nil => simp [scanBullets]
  | cons b bs ih =>
    by_cases h : Shape.collides_with b sq = true
    · simp only [scanBullets, h, if_true]
      exact le_trans (le_max_left _ _) (ih _ _ _ _)
    · simp only [scanBullets, h, Bool.false_eq_true, if_false]
      exact ih _ _ _ _

theorem scanBullets_high (bs : List Shape) (sq : Shape) (score high : ℕ)
    (ex : List Explosion) (hsh : score ≤ high) :
    (scanBullets sq bs score high ex).2.high_score =
      max high (scanBullets sq bs score high ex).2.score := by
  induction bs generalizing sq score high ex with
  | nil =>
    simp only [scanBullets]
    exact (max_eq_left hsh).symm
  | cons b bs ih =>
    by_cases h : Shape.collides_with b sq = true
    · simp only [scanBullets, h, if_true]
      rw [ih _ _ _ _ (le_max_right _ _), max_assoc,
        max_eq_right (scanBullets_score_mono _ _ _ _ _)]
    · simp only [scanBullets, h, Bool.false_eq_true, if_false]
      exact ih _ _ _ _ hsh

theorem scoreGain_map_markBulletIf (bs : List Shape) (sq : Shape)
    (sqs : List Shape) :
    scoreGain (bs.map (markBulletIf sq)) sqs = scoreGain bs sqs := by
  induction sqs with
  | nil => rfl
  | cons a l ih => simp [scoreGain, hitCount_map_markBulletIf, ih]

theorem explosionsOf_map_markBulletIf (bs : List Shape) (sq : Shape)
    (sqs : List Shape) :
    explosionsOf (bs.map (markBulletIf sq)) sqs = explosionsOf bs sqs := by
  induction sqs with
  | nil => rfl
  | cons a l ih => simp [explosionsOf, hitCount_map_markBulletIf, ih]

theorem pairPass_fst (sqs : List Shape) (st : PassState) :
    (pairPass sqs st).1 = sqs.map (markSquare st.bullets) := by
  induction sqs generalizing st with
  | nil => simp [pairPass]
  | cons sq sqs ih =>
    simp only [pairPass]
    rw [scanBullets_fst, ih, scanBullets_bullets, List.map_cons]
    have he : markSquare (st.bullets.map (markBulletIf sq)) = markSquare st.bullets :=
      funext fun sq2 => markSquare_map_markBulletIf st.bullets sq sq2
    rw [he]

theorem pairPass_bullets (sqs : List Shape) (st : PassState) :
    (pairPass sqs st).2.bullets = st.bullets.map (markBullet sqs) := by
  induction sqs generalizing st with
  | nil =>
    simp only [pairPass]
    have he : markBullet ([] : List Shape) = id := by
      funext b
      simp [markBullet]
    rw [he, List.map_id]
  | cons sq sqs ih =>
    simp only [pairPass]
    rw [ih, scanBullets_bullets, List.map_map]
    have he : markBullet sqs ∘ markBulletIf sq = markBullet (sq :: sqs) :=
      funext fun b => markBullet_markBulletIf sq sqs b
    rw [he]

theorem pairPass_score (sqs : List Shape) (st : PassState) :
    (pairPass sqs st).2.score = st.score + scoreGain st.bullets sqs := by
  induction sqs generalizing st with
  | nil => simp [pairPass, scoreGain]
  | cons sq sqs ih =>
    simp only [pairPass]
    rw [ih, scanBullets_score, scanBullets_bullets, scoreGain_map_markBulletIf]
    simp [scoreGain]
    omega

theorem pairPass_explosions (sqs : List Shape) (st : PassState) :
    (pairPass sqs st).2.explosions = st.explosions ++ explosionsOf st.bullets sqs := by
  induction sqs generalizing st with
  | nil => simp [pairPass, explosionsOf]
  | cons sq sqs ih =>
    simp only [pairPass]
    rw [ih, scanBullets_explosions, scanBullets_bullets, explosionsOf_map_markBulletIf]
    simp [explosionsOf]

theorem pairPass_score_mono (sqs : List Shape) (st : PassState) :
    st.score ≤ (pairPass sqs st).2.score := by
  rw [pairPass_score]
  exact Nat.le_add_right _ _

theorem pairPass_high_mono (sqs : List Shape) (st : PassState) :
    st.high_score ≤ (pairPass sqs st).2.high_score := by
  induction sqs generalizing st with
  | nil => simp [pairPass]
  | cons sq sqs ih =>
    simp only [pairPass]
    exact le_trans (scanBullets_high_mono _ _ _ _ _) (ih _)

theorem pairPass_high (sqs : List Shape) (st : PassState)
    (hsh : st.score ≤ st.high_score) :
    (pairPass sqs st).2.high_score =
      max st.high_score (pairPass sqs st).2.score := by
  induction sqs generalizing st with
  | nil =>
    simp only [pairPass]
    exact (max_eq_left hsh).symm
  | cons sq sqs ih =>
    simp only [pairPass]
    have h1 : (scanBullets sq st.bullets st.score st.high_score st.explosions).2.high_score =
        max st.high_score (scanBullets sq st.bullets st.score st.high_score st.explosions).2.score :=
      scanBullets_high _ _ _ _ _ hsh
    have h2 : (scanBullets sq st.bullets st.score st.high_score st.explosions).2.score ≤
        (scanBullets sq st.bullets st.score st.high_score st.explosions).2.high_score := by
      rw [h1]
      exact le_max_right _ _
    rw [ih _ h2, h1, max_assoc, max_eq_right (pairPass_score_mono _ _)]

theorem markSquare_y (bs : List Shape) (sq : Shape) :
    (markSquare bs sq).y = sq.y := rfl

theorem markSquare_size (bs : List Shape) (sq : Shape) :
    (markSquare bs sq).size = sq.size := rfl

theorem markBullet_y (sqs : List Shape) (b : Shape) :
    (markBullet sqs b).y = b.y := rfl

theorem markBullet_size (sqs : List Shape) (b : Shape) :
    (markBullet sqs b).size = b.size := rfl

theorem integratePhase_score (g : Game) (inp : FrameInput) (dt : ℚ)
    (rng : Rng) (W H : ℚ) :
    (integratePhase g inp dt rng W H).score = g.score := rfl

theorem integratePhase_high (g : Game) (inp : FrameInput) (dt : ℚ)
    (rng : Rng) (W H : ℚ) :
    (integratePhase g inp dt rng W H).high_score = g.high_score := rfl

theorem stepPlaying_high_mono (g : Game) (inp : FrameInput) (dt : ℚ)
    (rng : Rng) (W H : ℚ) :
    g.high_score ≤ (stepPlaying g inp dt rng W H).1.high_score := by
  simp only [stepPlaying]
  rw [← integratePhase_high g inp dt rng W H]
  exact pairPass_high_mono (integratePhase g inp dt rng W H).squares
    { bullets := (integratePhase g inp dt rng W H).bullets,
      score := (integratePhase g inp dt rng W H).score,
      high_score := (integratePhase g inp dt rng W H).high_score,
      explosions := (integratePhase g inp dt rng W H).explosions }

theorem stepPlaying_high_eq (g : Game) (inp : FrameInput) (dt : ℚ)
    (rng : Rng) (W H : ℚ) (hsh : g.score ≤ g.high_score) :
    (stepPlaying g inp dt rng W H).1.high_score =
      max g.high_score (stepPlaying g inp dt rng W H).1.score := by
  simp only [stepPlaying]
  rw [pairPass_high _ _ hsh]
  rfl

theorem stepPlaying_state (g : Game) (inp : FrameInput) (dt : ℚ)
    (rng : Rng) (W H : ℚ) :
    (stepPlaying g inp dt rng W H).1.game_state =
      (if playerHit (integratePhase g inp dt rng W H) then GameState.GameOver
        else GameState.Playing) := rfl

theorem collides_with_markBullet (sqs : List Shape) (b s : Shape) :
    Shape.collides_with (markBullet sqs b) s = b.collides_with s := rfl

theorem collides_with_markSquare (bs : List Shape) (b s : Shape) :
    Shape.collides_with b (markSquare bs s) = b.collides_with s := rfl

theorem stepPlaying_squares (g : Game) (inp : FrameInput) (dt : ℚ)
    (rng : Rng) (W H : ℚ) :
    (stepPlaying g inp dt rng W H).1.squares =
      (integratePhase g inp dt rng W H).squares.map
        (markSquare (integratePhase g inp dt rng W H).bullets) := by
  simp only [stepPlaying]
  rw [pairPass_fst]

theorem stepPlaying_bullets (g : Game) (inp : FrameInput) (dt : ℚ)
    (rng : Rng) (W H : ℚ) :
    (stepPlaying g inp dt rng W H).1.bullets =
      (integratePhase g inp dt rng W H).bullets.map
        (markBullet (integratePhase g inp dt rng W H).squares) := by
  simp only [stepPlaying]
  rw [pairPass_bullets]

theorem integratePhase_squares (g : Game) (inp : FrameInput) (dt : ℚ)
    (rng : Rng) (W H : ℚ) :
    (integratePhase g inp dt rng W H).squares =
      (((spawnStage g.squares rng).map (moveSquare dt)).filter
        (squareOnScreen H)).filter (fun s => !s.collided) := rfl

theorem integratePhase_bullets (g : Game) (inp : FrameInput) (dt : ℚ)
    (rng : Rng) (W H : ℚ) :
    (integratePhase g inp dt rng W H).bullets =
      (((if inp.space = true then
            g.bullets ++ [fireBullet (integratePlayer g.circle inp dt)]
          else g.bullets).map (moveBullet dt)).filter bulletOnScreen).filter
        (fun b => !b.collided) := rfl

/-! ### Claim theorems -/

/-- C3: `collides_with a b` holds exactly when the axis-aligned squares
centered on the two positions, with edge lengths the (positive) sizes,
intersect with positive extent on both axes; in particular boxes touching
only at an edge do not collide. -/
theorem C3_collides_iff (a b : Shape) (ha : 0 < a.size) (hb : 0 < b.size) :
    a.collides_with b = true ↔
      (max (a.x - a.size / 2) (b.x - b.size / 2) <
          min (a.x + a.size / 2) (b.x + b.size / 2) ∧
        max (a.y - a.size / 2) (b.y - b.size / 2) <
          min (a.y + a.size / 2) (b.y + b.size / 2)) := by
  unfold Shape.collides_with Rect.overlaps Shape.rect
  simp only [Bool.and_eq_true, decide_eq_true_eq, max_lt_iff, lt_min_iff]
  constructor
  · rintro ⟨⟨⟨h1, h2⟩, h3⟩, h4⟩
    refine ⟨⟨⟨?_, ?_⟩, ?_, ?_⟩, ⟨?_, ?_⟩, ?_, ?_⟩ <;> linarith
  · rintro ⟨⟨⟨h1, h2⟩, h3, h4⟩, ⟨h5, h6⟩, h7, h8⟩
    refine ⟨⟨⟨?_, ?_⟩, ?_⟩, ?_⟩ <;> linarith

/-- Witness for C3 at the fully-overlapping player/obstacle pair of
spec §8 Scenario A. -/
theorem C3_witness :
    Shape.collides_with
        { size := 32, speed := 200, x := 400, y := 300, collided := false }
        { size := 40, speed := 100, x := 400, y := 300, collided := false } = true :=
  (C3_collides_iff
      { size := 32, speed := 200, x := 400, y := 300, collided := false }
      { size := 40, speed := 100, x := 400, y := 300, collided := false }
      (by norm_num) (by norm_num)).mpr (by norm_num)

/-- C6: after the movement integration and clamp of a `Playing` frame the
player's position lies inside `[0, screen_width] × [0, screen_height]`. -/
theorem C6_player_clamped (g : Game) (inp : FrameInput) (dt : ℚ) (rng : Rng)
    (W H : ℚ) (_hdt : 0 ≤ dt) (hW : 0 < W) (hH : 0 < H) :
    0 ≤ (stepPlaying g inp dt rng W H).1.circle.x ∧
      (stepPlaying g inp dt rng W H).1.circle.x ≤ W ∧
      0 ≤ (stepPlaying g inp dt rng W H).1.circle.y ∧
      (stepPlaying g inp dt rng W H).1.circle.y ≤ H := by
  simp only [stepPlaying, integratePhase, clampPlayer]
  exact ⟨le_max_right _ _, max_le (min_le_right _ _) hW.le,
    le_max_right _ _, max_le (min_le_right _ _) hH.le⟩

/-- Witness for C6 at a concrete frame. -/
theorem C6_witness :
    0 ≤ (stepPlaying (initialGame none 800 600)
        { right := false, left := false, down := false, up := false,
          space := false, escape := false }
        0 { spawnRoll := 0, sizeRoll := 16, speedRoll := 50, xRoll := 100 }
        800 600).1.circle.x :=
  (C6_player_clamped (initialGame none 800 600)
      { right := false, left := false, down := false, up := false,
        space := false, escape := false }
      0 { spawnRoll := 0, sizeRoll := 16, speedRoll := 50, xRoll := 100 }
      800 600 le_rfl (by norm_num) (by norm_num)).1

/-- C7: after the off-screen sweeps of a `Playing` frame, every surviving
obstacle satisfies `y < screen_height + size` and every surviving
projectile satisfies `y > -size/2`. -/
theorem C7_offscreen_sweep (g : Game) (inp : FrameInput) (dt : ℚ) (rng : Rng)
    (W H : ℚ) :
    (∀ s ∈ (stepPlaying g inp dt rng W H).1.squares, s.y < H + s.size) ∧
      (∀ b ∈ (stepPlaying g inp dt rng W H).1.bullets, 0 - b.size / 2 < b.y) := by
  constructor
  · intro s hs
    simp only [stepPlaying, integratePhase] at hs
    rw [pairPass_fst] at hs
    obtain ⟨m, hm, rfl⟩ := List.mem_map.mp hs
    rw [markSquare_y, markSquare_size]
    have h2 := (List.mem_filter.mp (List.mem_filter.mp hm).1).2
    simpa [squareOnScreen] using h2
  · intro b hb
    simp only [stepPlaying, integratePhase] at hb
    rw [pairPass_bullets] at hb
    obtain ⟨m, hm, rfl⟩ := List.mem_map.mp hb
    rw [markBullet_y, markBullet_size]
    have h2 := (List.mem_filter.mp (List.mem_filter.mp hm).1).2
    simpa [bulletOnScreen] using h2

/-- Witness for C7: a frame that spawns one obstacle keeps it because it is
above the bottom threshold. -/
theorem C7_witness :
    ∀ s ∈ (stepPlaying (initialGame none 800 600)
        { right := false, left := false, down := false, up := false,
          space := false, escape := false }
        0 { spawnRoll := 95, sizeRoll := 20, speedRoll := 50, xRoll := 100 }
        800 600).1.squares, s.y < 600 + s.size :=
  (C7_offscreen_sweep (initialGame none 800 600)
      { right := false, left := false, down := false, up := false,
        space := false, escape := false }
      0 { spawnRoll := 95, sizeRoll := 20, speedRoll := 50, xRoll := 100 }
      800 600).1

/-- C10: firing happens before the clamp: a concrete `Playing` frame in which
the player holds right at `x = 790` (screen 800×600) and fires leaves the
player clamped to `x = 800` while the appended projectile sits at
`x = 810`, outside the playfield. -/
theorem C10_projectile_outside :
    ((stepPlaying
        { squares := [], bullets := [],
          circle := { size := 32, speed := 200, x := 790, y := 300,
                      collided := false },
          score := 0, high_score := 0, game_state := GameState.Playing,
          explosions := [], direction_modifier := 0 }
        { right := true, left := false, down := false, up := false,
          space := true, escape := false }
        (1 / 10) { spawnRoll := 0, sizeRoll := 16, speedRoll := 50, xRoll := 100 }
        800 600).1.bullets.map (fun b => (b.x, b.y))) = [(810, 260)] ∧
      ¬ ((810 : ℚ) ≤ 800) ∧
      (stepPlaying
        { squares := [], bullets := [],
          circle := { size := 32, speed := 200, x := 790, y := 300,
                      collided := false },
          score := 0, high_score := 0, game_state := GameState.Playing,
          explosions := [], direction_modifier := 0 }
        { right := true, left := false, down := false, up := false,
          space := true, escape := false }
        (1 / 10) { spawnRoll := 0, sizeRoll := 16, speedRoll := 50, xRoll := 100 }
        800 600).1.circle.x = 800 := by
  norm_num [stepPlaying, integratePhase, integratePlayer, directionStage,
    fireBullet, clampPlayer, spawnStage, moveBullet, moveSquare,
    squareOnScreen, bulletOnScreen, pairPass, playerHit, MOVEMENT_SPEED]

/-- C4: on a `Playing` frame in which the player's box overlaps some
obstacle's box (after the frame's sweeps), the persistence write is issued
if and only if `score == high_score` at that instant, the state transitions
to `GameOver`, and with `score < high_score` no write occurs. -/
theorem C4_persistence_on_death (g : Game) (inp : FrameInput) (dt : ℚ)
    (rng : Rng) (W H : ℚ)
    (hhit : playerHit (integratePhase g inp dt rng W H) = true) :
    ((stepPlaying g inp dt rng W H).2 = true ↔ g.score = g.high_score) ∧
      (stepPlaying g inp dt rng W H).1.game_state = GameState.GameOver ∧
      (g.score < g.high_score → (stepPlaying g inp dt rng W H).2 = false) := by
  refine ⟨?_, ?_, ?_⟩
  · simp [stepPlaying, hhit, integratePhase_score, integratePhase_high]
  · simp [stepPlaying, hhit]
  · intro hlt
    simp [stepPlaying, hhit, integratePhase_score, integratePhase_high]
    omega

/-- Witness for C4 at spec §8 Scenario A: player and obstacle fully overlap,
`score = high_score = 0`, so the frame issues the write and ends the run. -/
theorem C4_witness :
    ((stepPlaying
        { squares := [{ size := 32, speed := 50, x := 400, y := 300,
                        collided := false }],
          bullets := [],
          circle := { size := 32, speed := 200, x := 400, y := 300,
                      collided := false },
          score := 0, high_score := 0, game_state := GameState.Playing,
          explosions := [], direction_modifier := 0 }
        { right := false, left := false, down := false, up := false,
          space := false, escape := false }
        0 { spawnRoll := 0, sizeRoll := 16, speedRoll := 50, xRoll := 100 }
        800 600).2 = true ↔ (0 : ℕ) = 0) ∧
      (stepPlaying
        { squares := [{ size := 32, speed := 50, x := 400, y := 300,
                        collided := false }],
          bullets := [],
          circle := { size := 32, speed := 200, x := 400, y := 300,
                      collided := false },
          score := 0, high_score := 0, game_state := GameState.Playing,
          explosions := [], direction_modifier := 0 }
        { right := false, left := false, down := false, up := false,
          space := false, escape := false }
        0 { spawnRoll := 0, sizeRoll := 16, speedRoll := 50, xRoll := 100 }
        800 600).1.game_state = GameState.GameOver :=
  ⟨(C4_persistence_on_death _ _ _ _ _ _ (by
      norm_num [playerHit, integratePhase, integratePlayer, directionStage,
        clampPlayer, spawnStage, moveSquare, moveBullet, squareOnScreen,
        bulletOnScreen, Shape.collides_with, Rect.overlaps, Shape.rect])).1,
    (C4_persistence_on_death _ _ _ _ _ _ (by
      norm_num [playerHit, integratePhase, integratePlayer, directionStage,
        clampPlayer, spawnStage, moveSquare, moveBullet, squareOnScreen,
        bulletOnScreen, Shape.collides_with, Rect.overlaps, Shape.rect])).2.1⟩

/-- C5: over one `Playing` frame, the resolution pass adds `round(size)` to
the score exactly once per overlapping projectile–obstacle pair, leaves
`high_score = max(previous high_score, new score)`, and appends exactly one
emitting effect record per pair, anchored at the obstacle's position with
particle count `round(size) * 2`. -/
theorem C5_scoring (g : Game) (inp : FrameInput) (dt : ℚ) (rng : Rng)
    (W H : ℚ) (hsh : g.score ≤ g.high_score) :
    (stepPlaying g inp dt rng W H).1.score =
        g.score + scoreGain (integratePhase g inp dt rng W H).bullets
          (integratePhase g inp dt rng W H).squares ∧
      (stepPlaying g inp dt rng W H).1.high_score =
        max g.high_score (stepPlaying g inp dt rng W H).1.score ∧
      (stepPlaying g inp dt rng W H).1.explosions =
        (integratePhase g inp dt rng W H).explosions ++
          explosionsOf (integratePhase g inp dt rng W H).bullets
            (integratePhase g inp dt rng W H).squares := by
  refine ⟨?_, stepPlaying_high_eq g inp dt rng W H hsh, ?_⟩
  · simp only [stepPlaying]
    rw [pairPass_score]
    rfl
  · simp only [stepPlaying]
    rw [pairPass_explosions]

/-- Witness for C5 at spec §8 Scenario B: an obstacle of size 40 co-located
with a projectile; prior `score = 17`, `high_score = 30`; the frame yields
`score = 57` and `high_score = max 30 57 = 57`. -/
theorem C5_witness :
    (stepPlaying
        { squares := [{ size := 40, speed := 50, x := 400, y := 300,
                        collided := false }],
          bullets := [{ size := 5, speed := 400, x := 400, y := 300,
                        collided := false }],
          circle := { size := 32, speed := 200, x := 100, y := 100,
                      collided := false },
          score := 17, high_score := 30, game_state := GameState.Playing,
          explosions := [], direction_modifier := 0 }
        { right := false, left := false, down := false, up := false,
          space := false, escape := false }
        0 { spawnRoll := 0, sizeRoll := 16, speedRoll := 50, xRoll := 100 }
        800 600).1.score = 57 := by
  have h := (C5_scoring
    { squares := [{ size := 40, speed := 50, x := 400, y := 300,
                    collided := false }],
      bullets := [{ size := 5, speed := 400, x := 400, y := 300,
                    collided := false }],
      circle := { size := 32, speed := 200, x := 100, y := 100,
                  collided := false },
      score := 17, high_score := 30, game_state := GameState.Playing,
      explosions := [], direction_modifier := 0 }
    { right := false, left := false, down := false, up := false,
      space := false, escape := false }
    0 { spawnRoll := 0, sizeRoll := 16, speedRoll := 50, xRoll := 100 }
    800 600 (by norm_num)).1
  rw [h]
  norm_num [integratePhase, integratePlayer, directionStage, clampPlayer,
    spawnStage, moveSquare, moveBullet, squareOnScreen, bulletOnScreen,
    scoreGain, hitCount, Shape.collides_with, Rect.overlaps, Shape.rect]
  decide

/-- C8: `high_score` never decreases across any frame of any mode; it is set
at startup from storage (read or parse failure giving 0); a scoring frame
leaves it at `max(previous high_score, new score)`; and the
`MainMenu → Playing` transition resets `score` to 0 while leaving
`high_score` unchanged. -/
theorem C8_high_score_monotone :
    (∀ (g : Game) (inp : FrameInput) (dt : ℚ) (rng : Rng) (W H : ℚ)
        (g' : Game) (b : Bool), stepGame g inp dt rng W H = some (g', b) →
        g.high_score ≤ g'.high_score) ∧
      (∀ (g : Game) (inp : FrameInput) (dt : ℚ) (rng : Rng) (W H : ℚ)
        (g' : Game) (b : Bool), g.game_state = GameState.MainMenu →
        inp.escape = false → inp.space = true →
        stepGame g inp dt rng W H = some (g', b) →
        g'.score = 0 ∧ g'.high_score = g.high_score) ∧
      (∀ (storage : Option String) (W H : ℚ),
        (initialGame storage W H).high_score = loadHighScore storage) ∧
      loadHighScore none = 0 ∧
      (∀ s : String, parseU32 s = none → loadHighScore (some s) = 0) ∧
      (∀ (g : Game) (inp : FrameInput) (dt : ℚ) (rng : Rng) (W H : ℚ)
        (g' : Game) (b : Bool), g.game_state = GameState.Playing →
        g.score ≤ g.high_score → stepGame g inp dt rng W H = some (g', b) →
        g'.high_score = max g.high_score g'.score) := by
  refine ⟨?_, ?_, ?_, rfl, ?_, ?_⟩
  · intro g inp dt rng W H g' b hstep
    cases hgs : g.game_state with
    | MainMenu =>
      simp only [stepGame, hgs] at hstep
      by_cases he : inp.escape = true
      · simp [he] at hstep
      · by_cases hs : inp.space = true
        · simp only [he, Bool.false_eq_true, if_false, hs, if_true,
            Option.some.injEq] at hstep
          have h1 : _ = g' := congrArg Prod.fst hstep
          subst h1
          exact le_rfl
        · simp only [he, Bool.false_eq_true, hs, if_false,
            Option.some.injEq] at hstep
          have h1 : _ = g' := congrArg Prod.fst hstep
          subst h1
          exact le_rfl
    | Playing =>
      simp only [stepGame, hgs, Option.some.injEq] at hstep
      have h1 : _ = g' := congrArg Prod.fst hstep
      subst h1
      exact stepPlaying_high_mono g inp dt rng W H
    | Paused =>
      simp only [stepGame, hgs] at hstep
      by_cases he : inp.escape = true
      · simp only [he, if_true, Option.some.injEq] at hstep
        have h1 : _ = g' := congrArg Prod.fst hstep
        subst h1
        exact le_rfl
      · simp only [he, Bool.false_eq_true, if_false,
          Option.some.injEq] at hstep
        have h1 : _ = g' := congrArg Prod.fst hstep
        subst h1
        exact le_rfl
    | GameOver =>
      simp only [stepGame, hgs] at hstep
      by_cases hs : inp.space = true
      · simp only [hs, if_true, Option.some.injEq] at hstep
        have h1 : _ = g' := congrArg Prod.fst hstep
        subst h1
        exact le_rfl
      · simp only [hs, Bool.false_eq_true, if_false,
          Option.some.injEq] at hstep
        have h1 : _ = g' := congrArg Prod.fst hstep
        subst h1
        exact le_rfl
  · intro g inp dt rng W H g' b hgs he hs hstep
    simp only [stepGame, hgs, he, hs, Bool.false_eq_true, if_false, if_true,
      Option.some.injEq] at hstep
    have h1 : _ = g' := congrArg Prod.fst hstep
    subst h1
    exact ⟨rfl, rfl⟩
  · intro storage W H
    rfl
  · intro s hparse
    simp [loadHighScore, hparse]
  · intro g inp dt rng W H g' b hgs hsh hstep
    simp only [stepGame, hgs, Option.some.injEq] at hstep
    have h1 : _ = g' := congrArg Prod.fst hstep
    subst h1
    exact stepPlaying_high_eq g inp dt rng W H hsh

/-- Witness for C8: one concrete menu frame that starts a run keeps the
stored high score and resets the score. -/
theorem C8_witness :
    (initialGame (some "57") 800 600).high_score = loadHighScore (some "57") ∧
      ({ initialGame (some "57") 800 600 with
          squares := [], bullets := [], explosions := [],
          circle := { (initialGame (some "57") 800 600).circle with
                      x := 800 / 2, y := 600 / 2 },
          score := 0, game_state := GameState.Playing } : Game).score = 0 :=
  ⟨C8_high_score_monotone.2.2.1 (some "57") 800 600,
    (C8_high_score_monotone.2.1 (initialGame (some "57") 800 600)
      { right := false, left := false, down := false, up := false,
        space := true, escape := false }
      0 { spawnRoll := 0, sizeRoll := 16, speedRoll := 50, xRoll := 100 }
      800 600 _ false rfl rfl rfl rfl).1⟩

/-- C9: starting from the initial state, the state machine never enters
`Paused`: no branch of the per-frame dispatch assigns it, although the
state and its exit transition (`Paused → Playing` on Escape) exist. -/
theorem C9_paused_unreachable :
    (∀ (storage : Option String) (g : Game), Reachable storage g →
        g.game_state ≠ GameState.Paused) ∧
      (∀ (g : Game) (inp : FrameInput) (dt : ℚ) (rng : Rng) (W H : ℚ),
        g.game_state = GameState.Paused → inp.escape = true →
        stepGame g inp dt rng W H =
          some ({ g with game_state := GameState.Playing }, false)) := by
  constructor
  · intro storage g hreach
    induction hreach with
    | init W H => simp [initialGame]
    | step g g' inp dt rng W H saved hg hstep ih =>
      cases hgs : g.game_state with
      | MainMenu =>
        simp only [stepGame, hgs] at hstep
        by_cases he : inp.escape = true
        · simp [he] at hstep
        · by_cases hs : inp.space = true
          · simp only [he, Bool.false_eq_true, if_false, hs, if_true,
              Option.some.injEq] at hstep
            have h1 : _ = g' := congrArg Prod.fst hstep
            subst h1
            simp
          · simp only [he, Bool.false_eq_true, hs, if_false,
              Option.some.injEq] at hstep
            have h1 : _ = g' := congrArg Prod.fst hstep
            subst h1
            exact ih
      | Playing =>
        simp only [stepGame, hgs, Option.some.injEq] at hstep
        have h1 : _ = g' := congrArg Prod.fst hstep
        subst h1
        rw [stepPlaying_state]
        split <;> simp
      | Paused => exact absurd hgs ih
      | GameOver =>
        simp only [stepGame, hgs] at hstep
        by_cases hs : inp.space = true
        · simp only [hs, if_true, Option.some.injEq] at hstep
          have h1 : _ = g' := congrArg Prod.fst hstep
          subst h1
          simp
        · simp only [hs, Bool.false_eq_true, if_false,
            Option.some.injEq] at hstep
          have h1 : _ = g' := congrArg Prod.fst hstep
          subst h1
          exact ih
  · intro g inp dt rng W H hgs he
    simp [stepGame, hgs, he]

/-- Witness for C9: the initial state is not `Paused`, and a hypothetical
`Paused` state exits to `Playing` on Escape. -/
theorem C9_witness :
    (initialGame none 800 600).game_state ≠ GameState.Paused ∧
      stepGame
        { squares := [], bullets := [],
          circle := { size := 32, speed := 200, x := 400, y := 300,
                      collided := false },
          score := 0, high_score := 0, game_state := GameState.Paused,
          explosions := [], direction_modifier := 0 }
        { right := false, left := false, down := false, up := false,
          space := false, escape := true }
        0 { spawnRoll := 0, sizeRoll := 16, speedRoll := 50, xRoll := 100 }
        800 600 =
        some ({ squares := [], bullets := [],
                circle := { size := 32, speed := 200, x := 400, y := 300,
                            collided := false },
                score := 0, high_score := 0, game_state := GameState.Playing,
                explosions := [], direction_modifier := 0 }, false) :=
  by
  refine ⟨?_, ?_⟩
  · exact C9_paused_unreachable.1 none (initialGame none 800 600)
      (Reachable.init 800 600)
  · exact C9_paused_unreachable.2 _ _ 0 ⟨0, 16, 50, 100⟩ 800 600 rfl rfl

/-- Counterexample for C2: the spawn decision calls `gen_range` with bounds
`(0, 99)`, so under the spec's half-open random-source contract the draw 99
— which the claimed range `[0,100)` admits and which makes `>= 95` a 5%
event — is impossible, and only 4 of the 99 possible values spawn
(4/99 ≈ 4.04%, not 5/100). -/
theorem C2_counterexample :
    spawnRollBounds = (0, 99) ∧
      ¬ SpawnRollPossible 99 ∧
      99 < 100 ∧
      ((Finset.range 99).filter (fun r => 95 ≤ r)).card * 100 = 400 ∧
      5 * (Finset.range 99).card = 495 := by
  refine ⟨rfl, ?_, by norm_num, by decide, by decide⟩
  intro h
  exact absurd h.2 (by decide)

/-- C2 (amended): while `Playing` the spawner draws a uniform integer from
`[0,99)` (the call passes bounds `(0, 99)` to the half-open random
interface); iff the value is `>= 95` — exactly 4 of the 99 possible values —
it appends exactly one obstacle with size in `[16,64)`, speed in `[50,150)`,
`x` in `[size/2, screen_width - size/2)` and `y = -size`. -/
theorem C2_spawner_amended (sqs : List Shape) (rng : Rng) (W : ℚ)
    (hv : rng.Valid W) :
    (95 ≤ rng.spawnRoll →
      spawnStage sqs rng = sqs ++ [spawnShape rng] ∧
        16 ≤ (spawnShape rng).size ∧ (spawnShape rng).size < 64 ∧
        50 ≤ (spawnShape rng).speed ∧ (spawnShape rng).speed < 150 ∧
        (spawnShape rng).size / 2 ≤ (spawnShape rng).x ∧
        (spawnShape rng).x < W - (spawnShape rng).size / 2 ∧
        (spawnShape rng).y = -(spawnShape rng).size ∧
        (spawnShape rng).collided = false) ∧
      (rng.spawnRoll < 95 → spawnStage sqs rng = sqs) ∧
      rng.spawnRoll < 99 ∧
      ((Finset.range 99).filter (fun r => 95 ≤ r)).card = 4 := by
  obtain ⟨⟨h0, h99⟩, hs1, hs2, hp1, hp2, hx1, hx2⟩ := hv
  refine ⟨?_, ?_, h99, by decide⟩
  · intro hge
    exact ⟨by simp [spawnStage, hge], hs1, hs2, hp1, hp2, hx1, hx2, rfl, rfl⟩
  · intro hlt
    have hn : ¬ 95 ≤ rng.spawnRoll := by omega
    simp [spawnStage, hn]

/-- Witness for C2 (amended) at the draw `(95, 20, 60, 100)` on an 800-wide
screen: one obstacle is appended. -/
theorem C2_witness :
    spawnStage []
        { spawnRoll := 95, sizeRoll := 20, speedRoll := 60, xRoll := 100 } =
      [spawnShape
        { spawnRoll := 95, sizeRoll := 20, speedRoll := 60, xRoll := 100 }] :=
  ((C2_spawner_amended []
      { spawnRoll := 95, sizeRoll := 20, speedRoll := 60, xRoll := 100 }
      800 (by norm_num [Rng.Valid, SpawnRollPossible, spawnRollBounds])).1
    (by norm_num)).1

/-- Counterexample for C1: a `Playing` frame with one obstacle and one
projectile fully overlapping (player far away, `dt = 0`).  At the end of the
frame both entities are marked `collided = true` but both are STILL PRESENT
in their collections, because the filtering pass (source lines 206–207) runs
before the frame's collision rules (lines 213–235); they are only removed by
the next frame's sweep.  This refutes "both absent from their collections in
the state at the end of that same frame". -/
theorem C1_counterexample :
    (stepPlaying
        { squares := [{ size := 40, speed := 100, x := 400, y := 300,
                        collided := false }],
          bullets := [{ size := 5, speed := 400, x := 400, y := 300,
                        collided := false }],
          circle := { size := 32, speed := 200, x := 100, y := 100,
                      collided := false },
          score := 0, high_score := 0, game_state := GameState.Playing,
          explosions := [], direction_modifier := 0 }
        { right := false, left := false, down := false, up := false,
          space := false, escape := false }
        0 { spawnRoll := 0, sizeRoll := 16, speedRoll := 50, xRoll := 100 }
        800 600).1.squares =
        [{ size := 40, speed := 100, x := 400, y := 300, collided := true }] ∧
      (stepPlaying
        { squares := [{ size := 40, speed := 100, x := 400, y := 300,
                        collided := false }],
          bullets := [{ size := 5, speed := 400, x := 400, y := 300,
                        collided := false }],
          circle := { size := 32, speed := 200, x := 100, y := 100,
                      collided := false },
          score := 0, high_score := 0, game_state := GameState.Playing,
          explosions := [], direction_modifier := 0 }
        { right := false, left := false, down := false, up := false,
          space := false, escape := false }
        0 { spawnRoll := 0, sizeRoll := 16, speedRoll := 50, xRoll := 100 }
        800 600).1.bullets =
        [{ size := 5, speed := 400, x := 400, y := 300, collided := true }] ∧
      (stepPlaying
        { squares := [{ size := 40, speed := 100, x := 400, y := 300,
                        collided := false }],
          bullets := [{ size := 5, speed := 400, x := 400, y := 300,
                        collided := false }],
          circle := { size := 32, speed := 200, x := 100, y := 100,
                      collided := false },
          score := 0, high_score := 0, game_state := GameState.Playing,
          explosions := [], direction_modifier := 0 }
        { right := false, left := false, down := false, up := false,
          space := false, escape := false }
        0 { spawnRoll := 0, sizeRoll := 16, speedRoll := 50, xRoll := 100 }
        800 600).1.game_state = GameState.Playing := by
  refine ⟨?_, ?_, ?_⟩ <;>
    norm_num [stepPlaying, integratePhase, integratePlayer, directionStage,
      fireBullet, clampPlayer, spawnStage, moveSquare, moveBullet,
      squareOnScreen, bulletOnScreen, playerHit, pairPass, scanBullets,
      hitExplosion, Shape.collides_with, Rect.overlaps, Shape.rect]

/-- C1 (amended): in the frame where an obstacle's and a projectile's boxes
overlap, the step marks both entities `collided`, but the filtering pass runs
before the frame's two collision rules, so both remain (flagged) in the
collections at the end of the marking frame; every entity of the post-state
originates from an entry entity that was unflagged at frame start (or from
this frame's spawn/fire), so flagged entities are removed by the following
frame's sweep; the marking is determined by the overlap relation alone,
independent of pair iteration order. -/
theorem C1_mark_then_sweep_amended (g : Game) (inp : FrameInput) (dt : ℚ)
    (rng : Rng) (W H : ℚ) :
    (∀ s ∈ (stepPlaying g inp dt rng W H).1.squares,
        (s.collided = true ↔
          ∃ b ∈ (stepPlaying g inp dt rng W H).1.bullets,
            b.collides_with s = true)) ∧
      (∀ b ∈ (stepPlaying g inp dt rng W H).1.bullets,
        (b.collided = true ↔
          ∃ s ∈ (stepPlaying g inp dt rng W H).1.squares,
            b.collides_with s = true)) ∧
      (∀ s ∈ (stepPlaying g inp dt rng W H).1.squares, ∃ s0 : Shape,
        ((s0 ∈ g.squares ∧ s0.collided = false) ∨
          (95 ≤ rng.spawnRoll ∧ s0 = spawnShape rng)) ∧
        s.size = s0.size ∧ s.speed = s0.speed ∧ s.x = s0.x ∧
        s.y = s0.y + s0.speed * dt) ∧
      (∀ b ∈ (stepPlaying g inp dt rng W H).1.bullets, ∃ b0 : Shape,
        ((b0 ∈ g.bullets ∧ b0.collided = false) ∨
          (inp.space = true ∧
            b0 = fireBullet (integratePlayer g.circle inp dt))) ∧
        b.size = b0.size ∧ b.speed = b0.speed ∧ b.x = b0.x ∧
        b.y = b0.y - b0.speed * dt) := by
  refine ⟨?_, ?_, ?_, ?_⟩
  · intro s hs
    rw [stepPlaying_squares] at hs
    obtain ⟨m, hm, rfl⟩ := List.mem_map.mp hs
    have hmc : m.collided = false := by
      have h2 := (List.mem_filter.mp hm).2
      simpa using h2
    have hflag :
        (markSquare (integratePhase g inp dt rng W H).bullets m).collided =
          (integratePhase g inp dt rng W H).bullets.any
            (fun b => b.collides_with m) := by
      simp [markSquare, hmc]
    rw [hflag, stepPlaying_bullets]
    constructor
    · intro hany
      obtain ⟨b, hb, hbc⟩ := List.any_eq_true.mp hany
      refine ⟨markBullet (integratePhase g inp dt rng W H).squares b,
        List.mem_map_of_mem _ hb, ?_⟩
      rw [collides_with_markBullet, collides_with_markSquare]
      exact hbc
    · rintro ⟨b', hb', hbc⟩
      obtain ⟨b, hb, rfl⟩ := List.mem_map.mp hb'
      rw [collides_with_markBullet, collides_with_markSquare] at hbc
      exact List.any_eq_true.mpr ⟨b, hb, hbc⟩
  · intro b hb
    rw [stepPlaying_bullets] at hb
    obtain ⟨m, hm, rfl⟩ := List.mem_map.mp hb
    have hmc : m.collided = false := by
      have h2 := (List.mem_filter.mp hm).2
      simpa using h2
    have hflag :
        (markBullet (integratePhase g inp dt rng W H).squares m).collided =
          (integratePhase g inp dt rng W H).squares.any
            (fun sq => m.collides_with sq) := by
      simp [markBullet, hmc]
    rw [hflag, stepPlaying_squares]
    constructor
    · intro hany
      obtain ⟨sq, hsq, hc⟩ := List.any_eq_true.mp hany
      refine ⟨markSquare (integratePhase g inp dt rng W H).bullets sq,
        List.mem_map_of_mem _ hsq, ?_⟩
      rw [collides_with_markBullet, collides_with_markSquare]
      exact hc
    · rintro ⟨s', hs', hc⟩
      obtain ⟨sq, hsq, rfl⟩ := List.mem_map.mp hs'
      rw [collides_with_markBullet, collides_with_markSquare] at hc
      exact List.any_eq_true.mpr ⟨sq, hsq, hc⟩
  · intro s hs
    rw [stepPlaying_squares] at hs
    obtain ⟨m, hm, rfl⟩ := List.mem_map.mp hs
    rw [integratePhase_squares] at hm
    have hm1 := List.mem_filter.mp hm
    have hmc : m.collided = false := by simpa using hm1.2
    have hm2 := List.mem_filter.mp hm1.1
    obtain ⟨s0, hs0, rfl⟩ := List.mem_map.mp hm2.1
    have hc0 : s0.collided = false := hmc
    refine ⟨s0, ?_, rfl, rfl, rfl, rfl⟩
    unfold spawnStage at hs0
    by_cases hroll : 95 ≤ rng.spawnRoll
    · rw [if_pos hroll] at hs0
      rcases List.mem_append.mp hs0 with h | h
      · exact Or.inl ⟨h, hc0⟩
      · have he : s0 = spawnShape rng := by simpa using h
        exact Or.inr ⟨hroll, he⟩
    · rw [if_neg hroll] at hs0
      exact Or.inl ⟨hs0, hc0⟩
  · intro b hb
    rw [stepPlaying_bullets] at hb
    obtain ⟨m, hm, rfl⟩ := List.mem_map.mp hb
    rw [integratePhase_bullets] at hm
    have hm1 := List.mem_filter.mp hm
    have hmc : m.collided = false := by simpa using hm1.2
    have hm2 := List.mem_filter.mp hm1.1
    obtain ⟨b0, hb0, rfl⟩ := List.mem_map.mp hm2.1
    have hc0 : b0.collided = false := hmc
    refine ⟨b0, ?_, rfl, rfl, rfl, rfl⟩
    by_cases hspace : inp.space = true
    · rw [if_pos hspace] at hb0
      rcases List.mem_append.mp hb0 with h | h
      · exact Or.inl ⟨h, hc0⟩
      · have he : b0 = fireBullet (integratePlayer g.circle inp dt) := by
          simpa using h
        exact Or.inr ⟨hspace, he⟩
    · rw [if_neg hspace] at hb0
      exact Or.inl ⟨hb0, hc0⟩

/-- Witness for C1 (amended): in the overlapping-pair frame of the
counterexample state, the surviving obstacle is marked because an
overlapping projectile is present in the post-state. -/
theorem C1_witness :
    ({ size := 40, speed := 100, x := 400, y := 300, collided := true } :
      Shape).collided = true :=
  ((C1_mark_then_sweep_amended
      { squares := [{ size := 40, speed := 100, x := 400, y := 300,
                      collided := false }],
        bullets := [{ size := 5, speed := 400, x := 400, y := 300,
                      collided := false }],
        circle := { size := 32, speed := 200, x := 100, y := 100,
                    collided := false },
        score := 0, high_score := 0, game_state := GameState.Playing,
        explosions := [], direction_modifier := 0 }
      { right := false, left := false, down := false, up := false,
        space := false, escape := false }
      0 { spawnRoll := 0, sizeRoll := 16, speedRoll := 50, xRoll := 100 }
      800 600).1
    { size := 40, speed := 100, x := 400, y := 300, collided := true }
    (by
      norm_num [stepPlaying, integratePhase, integratePlayer, directionStage,
        fireBullet, clampPlayer, spawnStage, moveSquare, moveBullet,
        squareOnScreen, bulletOnScreen, playerHit, pairPass, scanBullets,
        hitExplosion, Shape.collides_with, Rect.overlaps, Shape.rect])).mpr
    ⟨{ size := 5, speed := 400, x := 400, y := 300, collided := true },
      by
        norm_num [stepPlaying, integratePhase, integratePlayer,
          directionStage, fireBullet, clampPlayer, spawnStage, moveSquare,
          moveBullet, squareOnScreen, bulletOnScreen, playerHit, pairPass,
          scanBullets, hitExplosion, Shape.collides_with, Rect.overlaps,
          Shape.rect],
      by norm_num [Shape.collides_with, Rect.overlaps, Shape.rect]⟩

end Arcade
